import Mathlib

/-!
Shallow embedding of `src/python_sql_connector.py` (class `SQLConnector`).

The Python class holds at most one psycopg2 connection and mediates query
execution.  We model the driver (psycopg2) as an explicit environment
(`Driver`) saying whether `connect`, `cursor.execute` and `connection.commit`
succeed and what the fetch calls return; each operation of the class returns
the list of driver-level events it performs (its trace) together with its
result, so that claims about rollbacks, cursor closing and "no driver call is
made" are statements about the trace.

Correspondence with the source:
* `open_connection`  — lines 12–37 (close prior connection, store config
  fields, `psycopg2.connect`);
* `close_connection` — lines 51–62 (`connection.close()`, `del`, `gc.collect`,
  print);
* `execute_query`    — lines 64–142 (asserts, `with self.connection`,
  `cursor.execute`, commit branch with try/except commit → rollback+print,
  read branch with fetchone/fetchall, `cursor.description`, dataframe /
  records reshaping, `return_cursor` handling).

The decorator `_check_connection` (lines 39–49) is the `match s.connection`
at the head of `close_connection` and `execute_query`: in Python it is an
`assert hasattr(self, "connection")`, modelled as `Err.preconditionError`.
The two `assert`s at lines 97–100 of `execute_query` are
`Err.validationFetchError` / `Err.validationModesError`.  psycopg2's
connection context manager (`with self.connection`) commits on normal block
exit and rolls back when an exception escapes the block; those driver-side
actions are the events `Event.ctxCommit` / `Event.ctxRollback`, distinct from
the component's own explicit `Event.rollbackCall` (line 110).
-/

namespace PySQL

/-- A database cell value (enough to express the spec's example rows). -/
inductive Value where
  | vint (i : Int)
  | vstr (s : String)
deriving DecidableEq, Repr

/-- A result row: the row's values in column order, as the driver yields it. -/
abbrev Row := List Value

/-- A cursor handle as the caller can observe it: whether it is still open and
which SQL text was executed on it. -/
structure Cursor where
  isOpen : Bool
  executedQuery : Option String
deriving DecidableEq, Repr

/-- Driver-level events performed by the component, in order. -/
inductive Event where
  | configAssign
  | connectCall (h : Nat)
  | connectFail
  | connCloseCall (h : Nat)
  | gcCollect
  | printClosed
  | cursorCreate
  | sqlExecute (q : String)
  | commitCall
  | rollbackCall
  | logError
  | fetchOneCall
  | fetchAllCall
  | descriptionRead
  | cursorCloseCall
  | ctxCommit
  | ctxRollback
deriving DecidableEq, Repr

/-- The error kinds of the spec's taxonomy (§7); in Python the first three are
`assert` failures distinguished by their message, the last two are driver
exceptions. -/
inductive Err where
  | preconditionError
  | validationFetchError
  | validationModesError
  | connectionError
  | executionError
deriving DecidableEq, Repr

/-- Whether an error is one of the two request-validation assertions. -/
def Err.isValidation : Err → Bool
  | .validationFetchError => true
  | .validationModesError => true
  | _ => false

/-- The connection parameters stored on the instance by `open_connection`
(lines 25–29); each may be `None` since the Python defaults are `None`. -/
structure Config where
  database : Option String
  user : Option String
  password : Option String
  host : Option String
  port : Option String
deriving DecidableEq, Repr

/-- The `SQLConnector` instance state: `connection` is `some h` when the
attribute `self.connection` exists and holds driver handle `h`; `config` is
`some c` once the five config attributes have been assigned (they are absent
before the first `open_connection` call). -/
structure SQLConnector where
  connection : Option Nat
  config : Option Config
deriving DecidableEq, Repr

/-- A freshly constructed `SQLConnector()`: no attributes set. -/
def SQLConnector.init : SQLConnector := { connection := none, config := none }

/-- The driver environment for one call: which driver operations succeed and
what the fetch calls / `cursor.description` return. -/
structure Driver where
  connectOk : Bool
  executeOk : Bool
  commitOk : Bool
  fetchOneResult : Option Row
  fetchAllResult : List Row
  description : List (String × Nat)
deriving DecidableEq, Repr

/-- Reshaped result data: raw rows, a dataframe (column names + rows), or
record mappings (each row as ordered column-name/value pairs, insertion order
being mapping construction order). -/
inductive RVal where
  | raw (rows : List Row)
  | df (columns : List String) (rows : List Row)
  | recs (records : List (List (String × Value)))
deriving DecidableEq, Repr

/-- What `execute_query` returns on success: nothing (commit path, cursor
closed), a bare cursor (commit path with `return_cursor`), reshaped data, or
reshaped data paired with the open cursor. -/
inductive QueryResult where
  | noResult
  | cursorOnly (c : Cursor)
  | val (v : RVal)
  | valWithCursor (v : RVal) (c : Cursor)
deriving DecidableEq, Repr

/-- The cursor handle contained in a result, if any. -/
def QueryResult.cursorPart : QueryResult → Option Cursor
  | .cursorOnly c => some c
  | .valWithCursor _ c => some c
  | _ => none

/-- Models `close_connection` (lines 51–62): requires the `connection` attribute
(decorator), calls the driver's `close`, deletes the attribute, forces a GC
pass and prints a notice. -/
def close_connection (s : SQLConnector) : List Event × SQLConnector × Option Err :=
  match s.connection with
  | none => ([], s, some Err.preconditionError)
  | some h =>
      ([Event.connCloseCall h, Event.gcCollect, Event.printClosed],
       { s with connection := none }, none)

/-- Models `open_connection` (lines 12–37): if a connection is already held it is
closed first via `close_connection`; then the five config fields are assigned
(lines 25–29) and `psycopg2.connect` is attempted with them.  `h` is the
handle the driver would create for a successful connect. -/
def open_connection (drv : Driver) (h : Nat) (cfg : Config) (s : SQLConnector) :
    List Event × SQLConnector × Option Err :=
  let closed : List Event × SQLConnector × Option Err :=
    match s.connection with
    | some _ => close_connection s
    | none => ([], s, none)
  let s1 : SQLConnector := { closed.2.1 with config := some cfg }
  if drv.connectOk then
    (closed.1 ++ [Event.configAssign, Event.connectCall h],
     { s1 with connection := some h }, none)
  else
    (closed.1 ++ [Event.configAssign, Event.connectFail],
     s1, some Err.connectionError)

/-- Line 134: `{column: value for value, column in zip(row, columns)}` —
the mapping's construction order is the order of `zip(row, columns)`, which
is column order truncated to the shorter of the two lists. -/
def toRecord (columns : List String) (row : Row) : List (String × Value) :=
  (List.zip row columns).map (fun vc => (vc.2, vc.1))

/-- Models `execute_query` (lines 64–142).  The trace is the list of driver events
the call performs before returning or propagating; the second component is
the returned value or the propagated error. -/
def execute_query (drv : Driver) (s : SQLConnector) (query : String)
    (commit : Bool) (fetch : String)
    (return_dataframe : Bool) (return_records : Bool) (return_cursor : Bool) :
    List Event × Except Err QueryResult :=
  match s.connection with
  | none => ([], Except.error Err.preconditionError)
  | some _ =>
    if ¬ (fetch = "one" ∨ fetch = "all") then
      ([], Except.error Err.validationFetchError)
    else if return_dataframe = true ∧ return_records = true then
      ([], Except.error Err.validationModesError)
    else if drv.executeOk = false then
      ([Event.cursorCreate, Event.sqlExecute query, Event.ctxRollback],
       Except.error Err.executionError)
    else if commit then
      let commitEvts : List Event :=
        if drv.commitOk then [Event.commitCall]
        else [Event.commitCall, Event.rollbackCall, Event.logError]
      if return_cursor then
        ([Event.cursorCreate, Event.sqlExecute query] ++ commitEvts ++ [Event.ctxCommit],
         Except.ok (QueryResult.cursorOnly { isOpen := true, executedQuery := some query }))
      else
        ([Event.cursorCreate, Event.sqlExecute query] ++ commitEvts
           ++ [Event.cursorCloseCall, Event.ctxCommit],
         Except.ok QueryResult.noResult)
    else
      let fo : List Event × List Row :=
        if fetch = "one" then
          ([Event.fetchOneCall],
           match drv.fetchOneResult with
           | none => []
           | some r => [r])
        else
          ([Event.fetchAllCall], drv.fetchAllResult)
      let columns := drv.description.map Prod.fst
      let rv : RVal :=
        if return_dataframe then RVal.df columns fo.2
        else if return_records then RVal.recs (fo.2.map (toRecord columns))
        else RVal.raw fo.2
      if return_cursor then
        ([Event.cursorCreate, Event.sqlExecute query] ++ fo.1
           ++ [Event.descriptionRead, Event.ctxCommit],
         Except.ok (QueryResult.valWithCursor rv { isOpen := true, executedQuery := some query }))
      else
        ([Event.cursorCreate, Event.sqlExecute query] ++ fo.1
           ++ [Event.descriptionRead, Event.cursorCloseCall, Event.ctxCommit],
         Except.ok (QueryResult.val rv))

/-- Which connection handles are live after an event: `connectCall h` creates
handle `h`, `connCloseCall h` releases it; no other event touches handles. -/
def liveStep (l : List Nat) : Event → List Nat
  | Event.connectCall h => h :: l
  | Event.connCloseCall h => l.erase h
  | _ => l

/-- The live connection handles after a trace, oldest last. -/
def liveAfter (evts : List Event) : List Nat := evts.foldl liveStep []

/-- Every prefix of the trace sees at most one live connection handle. -/
def PrefixBound (evts : List Event) : Prop :=
  ∀ p q, evts = p ++ q → (liveAfter p).length ≤ 1

/-- A connector together with the cumulative trace of driver events performed
on it and a counter supplying the handle the driver would create next. -/
structure World where
  s : SQLConnector
  trace : List Event
  counter : Nat

/-- A fresh connector with an empty history. -/
def World.init : World := { s := SQLConnector.init, trace := [], counter := 0 }

/-- One `open_connection` call on the world: the driver environment and the
config are the call's inputs; the trace accumulates the call's events. -/
def openStep (dc : Driver × Config) (w : World) : World :=
  { s := (open_connection dc.1 w.counter dc.2 w.s).2.1,
    trace := w.trace ++ (open_connection dc.1 w.counter dc.2 w.s).1,
    counter := w.counter + 1 }

/-- A sequence of `open_connection` calls. -/
def runOpens (calls : List (Driver × Config)) (w : World) : World :=
  calls.foldl (fun w dc => openStep dc w) w

/-- The inductive invariant: the live handles are exactly the one stored in
`connection` (if any), and no prefix of the history ever saw two live
handles. -/
def WorldInv (w : World) : Prop :=
  liveAfter w.trace = w.s.connection.toList ∧ PrefixBound w.trace

lemma liveAfter_append (a b : List Event) :
    liveAfter (a ++ b) = List.foldl liveStep (liveAfter a) b := by
  simp [liveAfter, List.foldl_append]

lemma prefixBound_append (a b : List Event) (ha : PrefixBound a)
    (hb : ∀ p q, b = p ++ q → (List.foldl liveStep (liveAfter a) p).length ≤ 1) :
    PrefixBound (a ++ b) := by
  intro p q h
  rcases List.append_eq_append_iff.mp h with ⟨r, hr1, hr2⟩ | ⟨r, hr1, hr2⟩
  · have : liveAfter p = List.foldl liveStep (liveAfter a) r := by
      rw [hr1, liveAfter_append]
    rw [this]
    exact hb r q hr2
  · exact ha p r hr1

lemma prefix_cases_two {α : Type} (e1 e2 : α) (p q : List α)
    (h : [e1, e2] = p ++ q) :
    p = [] ∨ p = [e1] ∨ p = [e1, e2] := by
  rcases p with _ | ⟨x, _ | ⟨y, _ | ⟨z, r⟩⟩⟩ <;> simp_all

lemma prefix_cases_five {α : Type} (e1 e2 e3 e4 e5 : α) (p q : List α)
    (h : [e1, e2, e3, e4, e5] = p ++ q) :
    p = [] ∨ p = [e1] ∨ p = [e1, e2] ∨ p = [e1, e2, e3] ∨
      p = [e1, e2, e3, e4] ∨ p = [e1, e2, e3, e4, e5] := by
  rcases p with _ | ⟨a, _ | ⟨b, _ | ⟨c, _ | ⟨d, _ | ⟨e, _ | ⟨f, r⟩⟩⟩⟩⟩⟩ <;> simp_all

lemma worldInv_openStep (dc : Driver × Config) (w : World) (hw : WorldInv w) :
    WorldInv (openStep dc w) := by
  obtain ⟨hlive, hpre⟩ := hw
  rcases hc : w.s.connection with _ | hOld
  · rcases hok : dc.1.connectOk with _ | _
    · constructor
      · simp [openStep, open_connection, hc, hok, liveAfter_append, hlive, liveStep]
      · apply prefixBound_append _ _ hpre
        intro p q hpq
        simp [open_connection, hc, hok] at hpq
        rcases prefix_cases_two _ _ _ _ hpq with h | h | h <;>
          simp [h, hlive, hc, liveStep]
    · constructor
      · simp [openStep, open_connection, hc, hok, liveAfter_append, hlive, liveStep]
      · apply prefixBound_append _ _ hpre
        intro p q hpq
        simp [open_connection, hc, hok] at hpq
        rcases prefix_cases_two _ _ _ _ hpq with h | h | h <;>
          simp [h, hlive, hc, liveStep]
  · rcases hok : dc.1.connectOk with _ | _
    · constructor
      · simp [openStep, open_connection, close_connection, hc, hok,
          liveAfter_append, hlive, liveStep]
      · apply prefixBound_append _ _ hpre
        intro p q hpq
        simp [open_connection, close_connection, hc, hok] at hpq
        rcases prefix_cases_five _ _ _ _ _ _ _ hpq with h | h | h | h | h | h <;>
          simp [h, hlive, hc, liveStep]
    · constructor
      · simp [openStep, open_connection, close_connection, hc, hok,
          liveAfter_append, hlive, liveStep]
      · apply prefixBound_append _ _ hpre
        intro p q hpq
        simp [open_connection, close_connection, hc, hok] at hpq
        rcases prefix_cases_five _ _ _ _ _ _ _ hpq with h | h | h | h | h | h <;>
          simp [h, hlive, hc, liveStep]

lemma worldInv_runOpens (calls : List (Driver × Config)) (w : World)
    (hw : WorldInv w) : WorldInv (runOpens calls w) := by
  induction calls generalizing w with
  | nil => exact hw
  | cons dc rest ih =>
      have h1 : WorldInv (openStep dc w) := worldInv_openStep dc w hw
      simpa [runOpens, List.foldl_cons] using ih (openStep dc w) h1

lemma worldInv_init : WorldInv World.init := by
  constructor
  · simp [World.init, liveAfter, SQLConnector.init]
  · intro p q h
    simp [World.init] at h
    simp [h.1, liveAfter]

/-- All-succeeding driver whose result set is the spec's example table
(rows (1,"a"), (2,"b") with columns id, name); used by the witnesses. -/
def witDrv : Driver :=
  { connectOk := true, executeOk := true, commitOk := true,
    fetchOneResult := some [Value.vint 1, Value.vstr "a"],
    fetchAllResult := [[Value.vint 1, Value.vstr "a"], [Value.vint 2, Value.vstr "b"]],
    description := [("id", 0), ("name", 0)] }

/-- A connector currently holding connection handle 0. -/
def witConn : SQLConnector := { connection := some 0, config := none }

/-- A connection config with concrete values, used by the witnesses. -/
def witCfg : Config :=
  { database := some "db", user := some "u", password := some "pw",
    host := some "localhost", port := some "5432" }

/-- C1: when `commit=true` and `connection.commit()` raises, `execute_query`
does not raise: it issues a rollback on the connection, logs the error, and
returns exactly what a successful commit would have returned (the open cursor
when `return_cursor=true`, nothing otherwise). -/
theorem commit_failure_recovered (drv : Driver) (s : SQLConnector)
    (q fetch : String) (rdf rrec rcur : Bool) (h : Nat)
    (hconn : s.connection = some h)
    (hfetch : fetch = "one" ∨ fetch = "all")
    (hmodes : ¬(rdf = true ∧ rrec = true))
    (hexec : drv.executeOk = true)
    (hcommit : drv.commitOk = false) :
    (execute_query drv s q true fetch rdf rrec rcur).2 =
      Except.ok (if rcur then
          QueryResult.cursorOnly { isOpen := true, executedQuery := some q }
        else QueryResult.noResult) ∧
    Event.rollbackCall ∈ (execute_query drv s q true fetch rdf rrec rcur).1 ∧
    Event.logError ∈ (execute_query drv s q true fetch rdf rrec rcur).1 ∧
    (execute_query drv s q true fetch rdf rrec rcur).2 =
      (execute_query { drv with commitOk := true } s q true fetch rdf rrec rcur).2 := by
  rcases hfetch with hf | hf <;> subst hf <;>
    rcases rdf with _ | _ <;> rcases rrec with _ | _ <;>
    simp_all [execute_query, hconn, hexec, hcommit] <;>
    rcases rcur with _ | _ <;> simp

/-- C1 witness: a concrete commit-failure call returns `noResult` and its
trace contains the rollback. -/
theorem commit_failure_recovered_witness :
    (execute_query { witDrv with commitOk := false } witConn "UPDATE t SET x = 1"
        true "all" false false false).2 =
      Except.ok (if false then
          QueryResult.cursorOnly { isOpen := true, executedQuery := some "UPDATE t SET x = 1" }
        else QueryResult.noResult) ∧
    Event.rollbackCall ∈ (execute_query { witDrv with commitOk := false } witConn
        "UPDATE t SET x = 1" true "all" false false false).1 := by
  have h := commit_failure_recovered { witDrv with commitOk := false } witConn
    "UPDATE t SET x = 1" "all" false false false 0 rfl (Or.inr rfl) (by simp) rfl rfl
  exact ⟨h.1, h.2.1⟩

/-- C3: with a connection held, a bad fetch mode or both output modes set
makes `execute_query` fail with a validation error and an empty trace: no
cursor is created and no SQL is executed, whatever the query text. -/
theorem validation_before_any_driver_call (drv : Driver) (s : SQLConnector)
    (q : String) (commit : Bool) (fetch : String) (rdf rrec rcur : Bool) (h : Nat)
    (hconn : s.connection = some h)
    (hbad : ¬(fetch = "one" ∨ fetch = "all") ∨ (rdf = true ∧ rrec = true)) :
    (∃ e, (execute_query drv s q commit fetch rdf rrec rcur).2 = Except.error e ∧
       e.isValidation = true) ∧
    (execute_query drv s q commit fetch rdf rrec rcur).1 = [] := by
  rcases hbad with hb | ⟨h1, h2⟩
  · obtain ⟨hb1, hb2⟩ := not_or.mp hb
    refine ⟨⟨Err.validationFetchError, ?_, rfl⟩, ?_⟩ <;>
      simp [execute_query, hconn, hb1, hb2]
  · subst h1; subst h2
    by_cases hf : fetch = "one" ∨ fetch = "all"
    · rcases hf with hf | hf <;> subst hf <;>
        refine ⟨⟨Err.validationModesError, ?_, rfl⟩, ?_⟩ <;>
        simp [execute_query, hconn]
    · obtain ⟨hb1, hb2⟩ := not_or.mp hf
      refine ⟨⟨Err.validationFetchError, ?_, rfl⟩, ?_⟩ <;>
        simp [execute_query, hconn, hb1, hb2]

/-- C3 witness: requesting both dataframe and records on a held connection
fails with a validation error and performs no driver call. -/
theorem validation_before_any_driver_call_witness :
    (∃ e, (execute_query witDrv witConn "SELECT * FROM t" false "all" true true false).2 =
       Except.error e ∧ e.isValidation = true) ∧
    (execute_query witDrv witConn "SELECT * FROM t" false "all" true true false).1 = [] :=
  validation_before_any_driver_call witDrv witConn "SELECT * FROM t" false "all"
    true true false 0 rfl (Or.inr ⟨rfl, rfl⟩)

/-- C4: with no connection held, `close_connection` fails with the
precondition error leaving the state unchanged, and `execute_query` fails the
same way for every argument combination; both produce an empty trace, so no
driver operation is performed. -/
theorem no_connection_precondition (s : SQLConnector) (hconn : s.connection = none) :
    close_connection s = ([], s, some Err.preconditionError) ∧
    ∀ (drv : Driver) (q : String) (commit : Bool) (fetch : String) (rdf rrec rcur : Bool),
      execute_query drv s q commit fetch rdf rrec rcur =
        ([], Except.error Err.preconditionError) := by
  constructor
  · simp [close_connection, hconn]
  · intro drv q commit fetch rdf rrec rcur
    simp [execute_query, hconn]

/-- C4 witness: on a fresh connector both operations fail with the
precondition error and an empty trace. -/
theorem no_connection_precondition_witness :
    close_connection SQLConnector.init = ([], SQLConnector.init, some Err.preconditionError) ∧
    execute_query witDrv SQLConnector.init "SELECT 1" false "all" false false false =
      ([], Except.error Err.preconditionError) :=
  ⟨(no_connection_precondition SQLConnector.init rfl).1,
   (no_connection_precondition SQLConnector.init rfl).2 witDrv "SELECT 1" false "all"
     false false false⟩

/-- C7: on the read branch with `fetch="one"` (raw output), a cursor yielding
no row gives the empty sequence and a cursor yielding a row gives the
one-element sequence holding that row's values in column order. -/
theorem fetch_one_result_shape (drv : Driver) (s : SQLConnector) (q : String)
    (h : Nat) (hconn : s.connection = some h) (hexec : drv.executeOk = true) :
    (drv.fetchOneResult = none →
      (execute_query drv s q false "one" false false false).2 =
        Except.ok (QueryResult.val (RVal.raw []))) ∧
    ∀ row, drv.fetchOneResult = some row →
      (execute_query drv s q false "one" false false false).2 =
        Except.ok (QueryResult.val (RVal.raw [row])) := by
  constructor
  · intro hnone
    simp [execute_query, hconn, hexec, hnone]
  · intro row hrow
    simp [execute_query, hconn, hexec, hrow]

/-- C7 witness: with one pending row (1, "a") the call returns the
one-element raw sequence; with no pending row it returns the empty one. -/
theorem fetch_one_result_shape_witness :
    (execute_query witDrv witConn "SELECT * FROM t" false "one" false false false).2 =
      Except.ok (QueryResult.val (RVal.raw [[Value.vint 1, Value.vstr "a"]])) ∧
    (execute_query { witDrv with fetchOneResult := none } witConn "SELECT * FROM t"
        false "one" false false false).2 =
      Except.ok (QueryResult.val (RVal.raw [])) :=
  ⟨(fetch_one_result_shape witDrv witConn "SELECT * FROM t" 0 rfl rfl).2
     [Value.vint 1, Value.vstr "a"] rfl,
   (fetch_one_result_shape { witDrv with fetchOneResult := none } witConn
     "SELECT * FROM t" 0 rfl rfl).1 rfl⟩

/-- C8: when `cursor.execute` raises, the execution error propagates to the
caller unchanged, the SQL is attempted exactly once (no retry), and the
component issues no rollback of its own for it (the only rollback-ish event
is the driver context manager's own exit behavior). -/
theorem execute_failure_propagates (drv : Driver) (s : SQLConnector)
    (q : String) (commit : Bool) (fetch : String) (rdf rrec rcur : Bool) (h : Nat)
    (hconn : s.connection = some h)
    (hfetch : fetch = "one" ∨ fetch = "all")
    (hmodes : ¬(rdf = true ∧ rrec = true))
    (hexec : drv.executeOk = false) :
    (execute_query drv s q commit fetch rdf rrec rcur).2 =
      Except.error Err.executionError ∧
    (execute_query drv s q commit fetch rdf rrec rcur).1 =
      [Event.cursorCreate, Event.sqlExecute q, Event.ctxRollback] ∧
    Event.rollbackCall ∉ (execute_query drv s q commit fetch rdf rrec rcur).1 ∧
    List.count (Event.sqlExecute q) (execute_query drv s q commit fetch rdf rrec rcur).1
      = 1 := by
  rcases hfetch with hf | hf <;> subst hf <;>
    rcases rdf with _ | _ <;> rcases rrec with _ | _ <;>
    simp_all [execute_query, hconn, hexec, List.count_cons]

/-- C8 witness: a concrete failing execute propagates the execution error
with the three-event trace and no component rollback. -/
theorem execute_failure_propagates_witness :
    (execute_query { witDrv with executeOk := false } witConn "SELEC oops"
        false "all" false false false).2 = Except.error Err.executionError ∧
    Event.rollbackCall ∉ (execute_query { witDrv with executeOk := false } witConn
        "SELEC oops" false "all" false false false).1 := by
  have h := execute_failure_propagates { witDrv with executeOk := false } witConn
    "SELEC oops" false "all" false false false 0 rfl (Or.inr rfl) (by simp) rfl
  exact ⟨h.1, h.2.2.1⟩

/-- Driver whose `cursor.execute` raises; used for the cursor-leak
counterexample. -/
def execFailDrv : Driver := { witDrv with executeOk := false }

/-- C2 counterexample: with `return_cursor=false` and a failing
`cursor.execute`, a cursor is created but `cursor.close()` is never invoked:
the exception escapes the `with` block, whose exit only rolls the transaction
back. -/
theorem cursor_close_not_invoked_on_execute_failure :
    (execute_query execFailDrv witConn "SELECT * FROM t" false "all"
        false false false).2 = Except.error Err.executionError ∧
    Event.cursorCreate ∈ (execute_query execFailDrv witConn "SELECT * FROM t"
        false "all" false false false).1 ∧
    Event.cursorCloseCall ∉ (execute_query execFailDrv witConn "SELECT * FROM t"
        false "all" false false false).1 := by
  refine ⟨rfl, ?_, ?_⟩ <;> decide

lemma execute_ok_cursorPart (drv : Driver) (s : SQLConnector) (q : String)
    (commit : Bool) (fetch : String) (rdf rrec : Bool) (r : QueryResult)
    (hr : (execute_query drv s q commit fetch rdf rrec true).2 = Except.ok r) :
    r.cursorPart = some { isOpen := true, executedQuery := some q } := by
  rcases hc : s.connection with _ | h
  · simp [execute_query, hc] at hr
  · simp only [execute_query, hc] at hr
    split_ifs at hr <;>
      (injection hr with hr2; subst hr2; simp [QueryResult.cursorPart])

set_option maxHeartbeats 1600000 in
lemma execute_ok_closes_cursor (drv : Driver) (s : SQLConnector) (q : String)
    (commit : Bool) (fetch : String) (rdf rrec : Bool) (r : QueryResult)
    (hr : (execute_query drv s q commit fetch rdf rrec false).2 = Except.ok r) :
    Event.cursorCloseCall ∈ (execute_query drv s q commit fetch rdf rrec false).1 := by
  rcases hc : s.connection with _ | h
  · simp [execute_query, hc] at hr
  · simp only [execute_query, hc] at hr ⊢
    split_ifs at hr ⊢
    all_goals first
      | contradiction
      | simp

set_option maxHeartbeats 1600000 in
lemma execute_error_trace (drv : Driver) (s : SQLConnector) (q : String)
    (commit : Bool) (fetch : String) (rdf rrec rcur : Bool)
    (hr : (execute_query drv s q commit fetch rdf rrec rcur).2 =
      Except.error Err.executionError) :
    (execute_query drv s q commit fetch rdf rrec rcur).1 =
      [Event.cursorCreate, Event.sqlExecute q, Event.ctxRollback] := by
  rcases hc : s.connection with _ | h
  · simp [execute_query, hc] at hr
  · simp only [execute_query, hc] at hr ⊢
    split_ifs at hr ⊢
    all_goals first
      | contradiction
      | simp
      | simp at hr

/-- C2 amended: `return_cursor=true` puts a still-open cursor in every
successful result, in both the commit branch and the read branch;
`return_cursor=false` invokes `cursor.close()` on every path on which
`cursor.execute` succeeds (every successful call), but when `cursor.execute`
raises, the created cursor is not closed by the component. -/
theorem cursor_discipline (drv : Driver) (s : SQLConnector) (q : String)
    (commit : Bool) (fetch : String) (rdf rrec rcur : Bool) :
    (rcur = true →
      ∀ r, (execute_query drv s q commit fetch rdf rrec rcur).2 = Except.ok r →
        r.cursorPart = some { isOpen := true, executedQuery := some q }) ∧
    (rcur = false →
      (∃ r, (execute_query drv s q commit fetch rdf rrec rcur).2 = Except.ok r) →
        Event.cursorCloseCall ∈ (execute_query drv s q commit fetch rdf rrec rcur).1) ∧
    ((execute_query drv s q commit fetch rdf rrec rcur).2 =
        Except.error Err.executionError →
      Event.cursorCreate ∈ (execute_query drv s q commit fetch rdf rrec rcur).1 ∧
      Event.cursorCloseCall ∉ (execute_query drv s q commit fetch rdf rrec rcur).1) := by
  refine ⟨?_, ?_, ?_⟩
  · rintro rfl r hr
    exact execute_ok_cursorPart drv s q commit fetch rdf rrec r hr
  · rintro rfl ⟨r, hr⟩
    exact execute_ok_closes_cursor drv s q commit fetch rdf rrec r hr
  · intro hr
    rw [execute_error_trace drv s q commit fetch rdf rrec rcur hr]
    exact ⟨by simp, by simp⟩

/-- C2 amended witness: a concrete successful `return_cursor=false` read call
has `cursor.close()` in its trace. -/
theorem cursor_discipline_witness :
    Event.cursorCloseCall ∈ (execute_query witDrv witConn "SELECT * FROM t"
        false "all" false false false).1 :=
  (cursor_discipline witDrv witConn "SELECT * FROM t" false "all"
      false false false).2.1 rfl
    ⟨QueryResult.val (RVal.raw witDrv.fetchAllResult), rfl⟩

/-- C5: over any sequence of `open_connection` calls from a fresh connector,
every point of the history sees at most one live connection handle; and a
call that finds a connection held first runs the `close_connection` logic on
it (driver close, attribute delete, GC pass, notice), those events preceding
the config assignment and the connect of the new connection. -/
theorem at_most_one_live_connection (calls : List (Driver × Config)) :
    PrefixBound (runOpens calls World.init).trace ∧
    ∀ (d : Driver) (cfg : Config) (w : World) (hOld : Nat),
      w.s.connection = some hOld →
      (openStep (d, cfg) w).trace =
        w.trace ++ [Event.connCloseCall hOld, Event.gcCollect, Event.printClosed,
          Event.configAssign,
          if d.connectOk then Event.connectCall w.counter else Event.connectFail] ∧
      (openStep (d, cfg) w).s.connection =
        (if d.connectOk then some w.counter else none) := by
  constructor
  · exact (worldInv_runOpens calls World.init worldInv_init).2
  · intro d cfg w hOld hc
    rcases hok : d.connectOk with _ | _ <;>
      simp [openStep, open_connection, close_connection, hc, hok]

/-- C5 witness: one concrete reopen on a held connection closes handle 0
before connecting handle 1. -/
theorem at_most_one_live_connection_witness :
    (openStep (witDrv, witCfg) { s := witConn, trace := [], counter := 1 }).trace =
      ([] : List Event) ++ [Event.connCloseCall 0, Event.gcCollect, Event.printClosed,
        Event.configAssign,
        if witDrv.connectOk then Event.connectCall 1 else Event.connectFail] ∧
    (openStep (witDrv, witCfg) { s := witConn, trace := [], counter := 1 }).s.connection =
      (if witDrv.connectOk then some 1 else none) :=
  (at_most_one_live_connection []).2 witDrv witCfg
    { s := witConn, trace := [], counter := 1 } 0 rfl

/-- The rows the read branch obtains from the driver in a fetch mode: for
"one" the wrapped `fetchone()` result (lines 120–122), otherwise the
`fetchall()` rows. -/
def fetchedRows (drv : Driver) (fetch : String) : List Row :=
  if fetch = "one" then
    match drv.fetchOneResult with
    | none => []
    | some r => [r]
  else drv.fetchAllResult

/-- Reshaped data as the read branch returns it: paired with the still-open
cursor when keep-cursor is requested (lines 137–142). -/
def wrapCursor (rcur : Bool) (q : String) (v : RVal) : QueryResult :=
  if rcur then QueryResult.valWithCursor v { isOpen := true, executedQuery := some q }
  else QueryResult.val v

/-- C6: on every read-branch call with `return_records=true` (either fetch
mode, with or without keep-cursor), each fetched row becomes the mapping
column-name → value with construction order equal to column order and rows
kept in fetch order; on the spec's example table the output is exactly the
two records {id:1, name:"a"}, {id:2, name:"b"}. -/
theorem records_output (drv : Driver) (s : SQLConnector) (q fetch : String)
    (rcur : Bool) (h : Nat) (hconn : s.connection = some h)
    (hfetch : fetch = "one" ∨ fetch = "all") (hexec : drv.executeOk = true) :
    (execute_query drv s q false fetch false true rcur).2 =
      Except.ok (wrapCursor rcur q (RVal.recs
        ((fetchedRows drv fetch).map (toRecord (drv.description.map Prod.fst))))) ∧
    (drv.fetchAllResult = [[Value.vint 1, Value.vstr "a"],
        [Value.vint 2, Value.vstr "b"]] →
     drv.description.map Prod.fst = ["id", "name"] →
     (execute_query drv s q false "all" false true false).2 =
       Except.ok (QueryResult.val (RVal.recs
         [[("id", Value.vint 1), ("name", Value.vstr "a")],
          [("id", Value.vint 2), ("name", Value.vstr "b")]]))) := by
  constructor
  · rcases hfetch with hf | hf <;> subst hf <;> rcases rcur with _ | _ <;>
      simp [execute_query, hconn, hexec, fetchedRows, wrapCursor]
  · intro h1 h2
    simp [execute_query, hconn, hexec, h1, h2, toRecord]

/-- C6 witness: the spec's example table produces exactly the two expected
record mappings, here instantiated on the fetch="all", no-keep-cursor call. -/
theorem records_output_witness :
    (execute_query witDrv witConn "SELECT * FROM t" false "all" false true false).2 =
      Except.ok (QueryResult.val (RVal.recs
        [[("id", Value.vint 1), ("name", Value.vstr "a")],
         [("id", Value.vint 2), ("name", Value.vstr "b")]])) :=
  (records_output witDrv witConn "SELECT * FROM t" "all" false 0 rfl
    (Or.inr rfl) rfl).2 rfl rfl

/-- C9: when the driver's connect raises, `open_connection` surfaces the
connection error and leaves the connector holding no connection, so
subsequent `close_connection` or `execute_query` calls fail with the
precondition error. -/
theorem connect_failure_leaves_disconnected (drv : Driver) (h : Nat)
    (cfg : Config) (s : SQLConnector) (hfail : drv.connectOk = false) :
    (open_connection drv h cfg s).2.2 = some Err.connectionError ∧
    (open_connection drv h cfg s).2.1.connection = none ∧
    (close_connection (open_connection drv h cfg s).2.1).2.2 =
      some Err.preconditionError ∧
    ∀ (drv2 : Driver) (q : String) (commit : Bool) (fetch : String)
      (rdf rrec rcur : Bool),
      (execute_query drv2 (open_connection drv h cfg s).2.1 q commit fetch
          rdf rrec rcur).2 = Except.error Err.preconditionError := by
  have hnone : (open_connection drv h cfg s).2.1.connection = none := by
    rcases hc : s.connection with _ | old <;>
      simp [open_connection, close_connection, hc, hfail]
  refine ⟨?_, hnone, ?_, ?_⟩
  · rcases hc : s.connection with _ | old <;>
      simp [open_connection, close_connection, hc, hfail]
  · simp [close_connection, hnone]
  · intro drv2 q commit fetch rdf rrec rcur
    simp [execute_query, hnone]

/-- C9 witness: a concrete failing connect yields the connection error and a
connector with no connection. -/
theorem connect_failure_leaves_disconnected_witness :
    (open_connection { witDrv with connectOk := false } 1 witCfg witConn).2.2 =
      some Err.connectionError ∧
    (open_connection { witDrv with connectOk := false } 1 witCfg witConn).2.1.connection =
      none :=
  ⟨(connect_failure_leaves_disconnected { witDrv with connectOk := false } 1
      witCfg witConn rfl).1,
   (connect_failure_leaves_disconnected { witDrv with connectOk := false } 1
      witCfg witConn rfl).2.1⟩

/-- C10: every `open_connection` call stores the supplied config fields
before the driver connect is attempted (the config-assignment event precedes
the connect event in the trace), so after a failed connect the stored config
already holds the failed attempt's values while no connection is held. -/
theorem config_overwritten_before_connect (drv : Driver) (h : Nat)
    (cfg : Config) (s : SQLConnector) :
    (open_connection drv h cfg s).2.1.config = some cfg ∧
    (∃ pre, (open_connection drv h cfg s).1 =
       pre ++ [Event.configAssign,
         if drv.connectOk then Event.connectCall h else Event.connectFail]) ∧
    (drv.connectOk = false →
      (open_connection drv h cfg s).2.1.connection = none ∧
      (open_connection drv h cfg s).2.2 = some Err.connectionError) := by
  rcases hok : drv.connectOk with _ | _ <;> rcases hc : s.connection with _ | old <;>
    refine ⟨?_, ⟨(close_connection s).1, ?_⟩, ?_⟩ <;>
      simp [open_connection, close_connection, hc, hok]

/-- C10 witness: after a concrete failed open the stored config holds the
attempted values and no connection is held. -/
theorem config_overwritten_before_connect_witness :
    (open_connection { witDrv with connectOk := false } 2 witCfg witConn).2.1.config =
      some witCfg ∧
    (open_connection { witDrv with connectOk := false } 2 witCfg witConn).2.1.connection =
      none :=
  ⟨(config_overwritten_before_connect { witDrv with connectOk := false } 2
      witCfg witConn).1,
   ((config_overwritten_before_connect { witDrv with connectOk := false } 2
      witCfg witConn).2.2 rfl).1⟩

end PySQL
